import Mathlib

/-!
Shallow embedding of `src/main.py` (CLT Chatbot API, FastAPI + Supabase).

Modelling conventions:
* The Supabase tables touched by the handlers (`conversations`, `messages`,
  `admin_scenarios`, `api_templates`, `form_templates`) are lists of records
  inside an `AppState`; inserts append, `update ... eq id` maps over the list,
  `delete ... eq id` filters the list and reports the deleted rows.
* `asyncio.Queue` (`event_queue`) is a FIFO list: `put` appends at the tail,
  `get` takes the head (`none` models the suspension on an empty queue).
* `datetime.now(timezone.utc)` is modelled as a strictly increasing `Nat`
  counter (`clock`): each call to `get_utc_now` observes the current instant
  and advances the clock, so two distinct calls observe distinct instants;
  `asyncio.sleep 5` advances the clock by 5.
* Database failures (an exception raised by `.execute()`, or an empty
  `res.data` where a row was expected) are modelled by explicit `Bool`
  oracles, one per datastore call, threaded into each handler; a Python
  `try/except` block short-circuits on the first failing call.
* A handler returns `Except Nat α`: `Except.error n` models
  `raise HTTPException(status_code = n)`, `Except.ok` the normal response.
* `BackgroundTasks.add_task(perform_background_task, cid)` is modelled by
  appending `cid` to a `pending_tasks` list; `perform_background_task` is a
  separate state transformer, run after the response.
* Opaque JSON payloads (scenario node/edge dicts, slot values) are modelled
  as `String`s, since the code stores and returns them verbatim.
-/

namespace MusclecatApi

/-- An item of the `messages` table (`id` is DB-generated and unused by the
handlers, so it is omitted). -/
structure MessageRow where
  conversation_id : String
  role : String
  content : String
  created_at : Nat
deriving DecidableEq, Repr

/-- An item of the `conversations` table. -/
structure ConversationRow where
  id : String
  title : String
  is_pinned : Bool
  created_at : Nat
  updated_at : Nat
deriving DecidableEq, Repr

/-- An item of the `admin_scenarios` table; `nodes`/`edges` are opaque JSON
blobs, modelled as strings. -/
structure ScenarioRow where
  id : String
  tenant_id : String
  stage_id : String
  name : String
  job : Option String
  description : Option String
  nodes : List String
  edges : List String
  start_node_id : Option String
  category_id : Option String
  created_at : Nat
  updated_at : Nat
  last_used_at : Option Nat
deriving DecidableEq, Repr

/-- An item of the `api_templates` / `form_templates` tables (payload fields
beyond the id are irrelevant to the delete endpoints and kept opaque). -/
structure TemplateRow where
  id : String
  tenant_id : String
  name : String
deriving DecidableEq, Repr

/-- The payload `perform_background_task` puts on `event_queue`:
`{conversation_id, status, message, timestamp}`. -/
structure NotificationEvent where
  conversation_id : String
  status : String
  message : String
  timestamp : Nat
deriving DecidableEq, Repr

/-- Process state: the Supabase tables, the module-level `event_queue`, the
scheduled background tasks, the clock, and a counter for DB-generated ids. -/
structure AppState where
  conversations : List ConversationRow
  messages : List MessageRow
  admin_scenarios : List ScenarioRow
  api_templates : List TemplateRow
  form_templates : List TemplateRow
  event_queue : List NotificationEvent
  pending_tasks : List String
  clock : Nat
  next_id : Nat
deriving DecidableEq, Repr

/-- The empty process state at startup. -/
def initState : AppState :=
  { conversations := [], messages := [], admin_scenarios := [],
    api_templates := [], form_templates := [], event_queue := [],
    pending_tasks := [], clock := 0, next_id := 0 }

/-- `get_utc_now()`: observe the current instant and advance the clock. -/
def get_utc_now (st : AppState) : Nat × AppState :=
  (st.clock, { st with clock := st.clock + 1 })

/-- A fresh DB-generated row id. -/
def freshId (st : AppState) : String × AppState :=
  ("id-" ++ toString st.next_id, { st with next_id := st.next_id + 1 })

/-! ### The notification relay (`event_queue = asyncio.Queue()`) -/

/-- The relay queue state: a FIFO list of pending events. -/
abbrev EventQueue := List NotificationEvent

/-- `event_queue.put(e)`: enqueue at the tail; never blocks (unbounded). -/
def publish (q : EventQueue) (e : NotificationEvent) : EventQueue := q ++ [e]

/-- A sequence of `put` calls in order. -/
def publishAll (q : EventQueue) (es : List NotificationEvent) : EventQueue :=
  es.foldl publish q

/-- `await event_queue.get()` (+ `task_done`): on an empty queue the awaiting
consumer suspends (`none`); otherwise the head event is yielded and removed
from the queue (consumed). -/
def qget : EventQueue → Option (NotificationEvent × EventQueue)
  | [] => none
  | e :: rest => some (e, rest)

/-- The SSE `event_generator` loop of `sse_endpoint`, with explicit fuel: it
repeatedly gets the next event and yields it; it stops early only when the
queue is empty (suspension). Returns the yielded events and the final queue. -/
def event_generator : Nat → EventQueue → List NotificationEvent × EventQueue
  | 0, q => ([], q)
  | n + 1, q =>
    match qget q with
    | none => ([], q)
    | some (e, rest) =>
      let r := event_generator n rest
      (e :: r.1, r.2)

/-- One step of an interleaved execution: either some producer calls
`event_queue.put e`, or the single subscriber's loop calls `get`. -/
inductive RelayOp where
  | publishOp : NotificationEvent → RelayOp
  | getNextOp : RelayOp
deriving DecidableEq, Repr

/-- Run an arbitrary interleaving of producer/consumer steps against the
queue, collecting the events the subscriber yields (a `get` on an empty queue
suspends and yields nothing). -/
def runRelay : EventQueue → List RelayOp → List NotificationEvent × EventQueue
  | q, [] => ([], q)
  | q, RelayOp.publishOp e :: ops => runRelay (publish q e) ops
  | q, RelayOp.getNextOp :: ops =>
    match qget q with
    | none => runRelay q ops
    | some (e, rest) =>
      let r := runRelay rest ops
      (e :: r.1, r.2)

/-- The events published by a trace, in call order. -/
def publishedOf : List RelayOp → List NotificationEvent
  | [] => []
  | RelayOp.publishOp e :: ops => e :: publishedOf ops
  | RelayOp.getNextOp :: ops => publishedOf ops

/-! ### Substring search (Python's `"딜레이" in request.content`) -/

/-- Whether `p` is a prefix of `l` (over characters). -/
def isPrefixL : List Char → List Char → Bool
  | [], _ => true
  | _ :: _, [] => false
  | a :: as, b :: bs => a = b && isPrefixL as bs

/-- Whether `needle` occurs inside `hay` (over characters). -/
def containsL (needle : List Char) : List Char → Bool
  | [] => isPrefixL needle []
  | c :: cs => isPrefixL needle (c :: cs) || containsL needle cs

/-- Python's substring test `needle in hay` on strings. -/
def strContains (hay needle : String) : Bool :=
  containsL needle.toList hay.toList

/-! ### Fixed message strings from `main.py` -/

/-- The trigger substring checked by the chat handler. -/
def delay_trigger : String := "딜레이"

/-- The fixed processing message returned immediately on a trigger hit. -/
def processing_msg : String := "⏳ 처리중입니다..."

/-- `success_msg`: the fixed done message written by the background task. -/
def success_msg : String := "✅ 처리 완료 (5초 후 생성됨)"

/-! ### Shared datastore helpers -/

/-- `supabase.table("conversations").update({"updated_at": t}).eq("id", cid)`. -/
def touch_updated_at (cid : String) (t : Nat) (l : List ConversationRow) :
    List ConversationRow :=
  l.map fun c => if c.id = cid then { c with updated_at := t } else c

/-! ### `perform_background_task` -/

/-- `perform_background_task(conversation_id)`: sleep 5, then (inside
`try/except`) insert the assistant done-message, touch the conversation's
`updated_at`, and `put` one notification event on the queue. `insertOk` /
`updateOk` are the failure oracles for the two datastore writes; an exception
aborts the rest of the `try` block and is swallowed by the `except` clause
(the task returns normally either way, publishing nothing). -/
def perform_background_task (insertOk updateOk : Bool) (cid : String)
    (st : AppState) : AppState :=
  let st0 := { st with clock := st.clock + 5 }
  let r1 := get_utc_now st0
  if insertOk then
    let st2 := { r1.2 with
      messages := r1.2.messages ++ [⟨cid, "assistant", success_msg, r1.1⟩] }
    let r2 := get_utc_now st2
    if updateOk then
      let st4 := { r2.2 with
        conversations := touch_updated_at cid r2.1 r2.2.conversations }
      let r3 := get_utc_now st4
      { r3.2 with
        event_queue := publish r3.2.event_queue ⟨cid, "done", success_msg, r3.1⟩ }
    else r2.2
  else r1.2

/-! ### Chat endpoint -/

/-- `ChatRequest` body; `slots` values are opaque, modelled as string pairs. -/
structure ChatRequest where
  conversation_id : Option String
  content : String
  language : Option String
  slots : Option (List (String × String))
deriving DecidableEq, Repr

/-- `ChatResponse` body. -/
structure ChatResponse where
  type : String
  message : String
  slots : List (String × String)
  next_node : Option String
deriving DecidableEq, Repr

/-- `POST /chat`: picks the reply message (processing message on a trigger
hit, echo otherwise), schedules the background task when the trigger hit AND
the conversation id is truthy (Python truthiness: `None` and `""` are both
falsy), then — again only when the conversation id is truthy — runs the `try`
block persisting the user message, the assistant message and the conversation
touch (`i1`, `i2`, `u` are the failure oracles of those three datastore
calls; a failure skips the rest of the block and is only logged). Always
returns the normal response. -/
def chat (i1 i2 u : Bool) (req : ChatRequest) (st : AppState) :
    Except Nat ChatResponse × AppState :=
  let triggered := strContains req.content delay_trigger
  let response_msg :=
    if triggered then processing_msg
    else "Echo: " ++ req.content ++ " (Supabase)"
  let stA :=
    if triggered then
      match req.conversation_id with
      | some cid =>
        if cid = "" then st
        else { st with pending_tasks := st.pending_tasks ++ [cid] }
      | none => st
    else st
  let stB :=
    match req.conversation_id with
    | some cid =>
      if cid = "" then stA
      else
      let r1 := get_utc_now stA
      if i1 then
        let s1 := { r1.2 with
          messages := r1.2.messages ++ [⟨cid, "user", req.content, r1.1⟩] }
        let r2 := get_utc_now s1
        if i2 then
          let s2 := { r2.2 with
            messages := r2.2.messages ++ [⟨cid, "assistant", response_msg, r2.1⟩] }
          let r3 := get_utc_now s2
          if u then
            { r3.2 with
              conversations := touch_updated_at cid r3.1 r3.2.conversations }
          else r3.2
        else r2.2
      else r1.2
    | none => stA
  (Except.ok { type := "text", message := response_msg,
               slots := req.slots.getD [], next_node := none }, stB)

/-! ### Conversation CRUD -/

/-- `CreateConversationRequest` body. -/
structure CreateConversationRequest where
  title : Option String
deriving DecidableEq, Repr

/-- `POST /conversations`: default the title (Python truthiness: `None` and
`""` both fall back to `"New Chat"`), insert with `is_pinned = False` and
fresh `created_at` / `updated_at`; a failed or empty insert is surfaced as
HTTP 500. -/
def create_conversation (dbOk : Bool) (req : CreateConversationRequest)
    (st : AppState) : Except Nat ConversationRow × AppState :=
  let new_title :=
    match req.title with
    | some t => if t = "" then "New Chat" else t
    | none => "New Chat"
  let r1 := get_utc_now st
  let r2 := get_utc_now r1.2
  if dbOk then
    let rid := freshId r2.2
    let row : ConversationRow :=
      { id := rid.1, title := new_title, is_pinned := false,
        created_at := r1.1, updated_at := r2.1 }
    (Except.ok row, { rid.2 with conversations := rid.2.conversations ++ [row] })
  else
    (Except.error 500, r2.2)

/-- `UpdateConversationRequest` body. -/
structure UpdateConversationRequest where
  title : Option String
  is_pinned : Option Bool
deriving DecidableEq, Repr

/-- The row transformation of `PATCH /conversations/{id}`: always refresh
`updated_at`, and overwrite `title` / `is_pinned` when provided. -/
def applyConvUpdate (req : UpdateConversationRequest) (t : Nat)
    (c : ConversationRow) : ConversationRow :=
  { c with
    updated_at := t,
    title := match req.title with | some v => v | none => c.title,
    is_pinned := match req.is_pinned with | some v => v | none => c.is_pinned }

/-- `PATCH /conversations/{id}`: run the update (which always refreshes
`updated_at` on the matching rows), then inspect the updated rows; an empty
update result is HTTP 404. The state change happens before the check, exactly
as in the source. -/
def update_conversation (cid : String) (req : UpdateConversationRequest)
    (st : AppState) : Except Nat ConversationRow × AppState :=
  let r1 := get_utc_now st
  let touched :=
    (r1.2.conversations.filter fun c => c.id = cid).map (applyConvUpdate req r1.1)
  let st2 := { r1.2 with
    conversations := r1.2.conversations.map
      fun c => if c.id = cid then applyConvUpdate req r1.1 c else c }
  (match touched with
   | [] => Except.error 404
   | r :: _ => Except.ok r, st2)

/-- `POST /conversations/{id}/delete`: delete matching rows; an empty delete
result is HTTP 404, otherwise HTTP 204. -/
def delete_conversation (cid : String) (st : AppState) :
    Except Nat Nat × AppState :=
  let deleted := st.conversations.filter fun c => c.id = cid
  let st1 := { st with
    conversations := st.conversations.filter fun c => ¬ c.id = cid }
  (match deleted with
   | [] => Except.error 404
   | _ :: _ => Except.ok 204, st1)

/-! ### Admin scenarios -/

/-- `CreateScenarioRequest` body. -/
structure CreateScenarioRequest where
  name : String
  job : Option String
  description : Option String
  category_id : Option String
  nodes : List String
  edges : List String
  start_node_id : Option String
  clone_from_id : Option String
deriving DecidableEq, Repr

/-- `POST /api/v1/chat/scenarios/{tenant}/{stage}`: build the new row from the
request; when `clone_from_id` is truthy (present and non-empty) and an
original scenario with that id exists, its `nodes`, `edges` and
`start_node_id` override the request's; then insert (a failed or empty insert
is HTTP 500). -/
def create_admin_scenario (dbOk : Bool) (tenant_id stage_id : String)
    (req : CreateScenarioRequest) (st : AppState) :
    Except Nat ScenarioRow × AppState :=
  let r1 := get_utc_now st
  let r2 := get_utc_now r1.2
  let r3 := get_utc_now r2.2
  let base : ScenarioRow :=
    { id := "", tenant_id := tenant_id, stage_id := stage_id,
      name := req.name, job := req.job, description := req.description,
      nodes := req.nodes, edges := req.edges,
      start_node_id := req.start_node_id, category_id := req.category_id,
      created_at := r1.1, updated_at := r2.1, last_used_at := some r3.1 }
  let withClone :=
    match req.clone_from_id with
    | some c =>
      if c = "" then base
      else
        match r3.2.admin_scenarios.find? (fun s : ScenarioRow => s.id = c) with
        | some org =>
          { base with nodes := org.nodes, edges := org.edges,
                      start_node_id := org.start_node_id }
        | none => base
    | none => base
  if dbOk then
    let rid := freshId r3.2
    let row := { withClone with id := rid.1 }
    (Except.ok row,
     { rid.2 with admin_scenarios := rid.2.admin_scenarios ++ [row] })
  else
    (Except.error 500, r3.2)

/-- `POST .../scenarios/{tenant}/{stage}/{id}/delete`: an empty delete result
is HTTP 404, otherwise HTTP 204. -/
def delete_admin_scenario (sid : String) (st : AppState) :
    Except Nat Nat × AppState :=
  let deleted := st.admin_scenarios.filter fun s => s.id = sid
  let st1 := { st with
    admin_scenarios := st.admin_scenarios.filter fun s => ¬ s.id = sid }
  (match deleted with
   | [] => Except.error 404
   | _ :: _ => Except.ok 204, st1)

/-! ### Template deletes -/

/-- `POST .../templates/api/{tenant}/{id}/delete`: fire the delete and return
HTTP 204 without ever inspecting `res.data`. -/
def delete_api_template (template_id : String) (st : AppState) :
    Except Nat Nat × AppState :=
  (Except.ok 204,
   { st with
     api_templates := st.api_templates.filter fun t => ¬ t.id = template_id })

/-- `POST .../templates/form/{tenant}/{id}/delete`: fire the delete and return
HTTP 204 without ever inspecting `res.data`. -/
def delete_form_template (template_id : String) (st : AppState) :
    Except Nat Nat × AppState :=
  (Except.ok 204,
   { st with
     form_templates := st.form_templates.filter fun t => ¬ t.id = template_id })

/-- Every row of `l` satisfies `created_at ≤ updated_at`, and carries a
timestamp strictly before the instant `clk` (all stored timestamps were
observed by past `get_utc_now` calls). -/
abbrev convRowsWF (l : List ConversationRow) (clk : Nat) : Prop :=
  ∀ c ∈ l, c.created_at ≤ c.updated_at ∧ c.updated_at < clk

/-- Timestamp well-formedness of the whole state. -/
abbrev convWF (st : AppState) : Prop := convRowsWF st.conversations st.clock

/-- The row `create_admin_scenario` inserts, parametrized by the
nodes/edges/start-node triple that survives the clone override. -/
def newScenarioRow (t s : String) (req : CreateScenarioRequest)
    (st : AppState) (ns es : List String) (sn : Option String) : ScenarioRow :=
  { id := "id-" ++ toString st.next_id, tenant_id := t, stage_id := s,
    name := req.name, job := req.job, description := req.description,
    nodes := ns, edges := es, start_node_id := sn,
    category_id := req.category_id, created_at := st.clock,
    updated_at := st.clock + 1, last_used_at := some (st.clock + 2) }

/-- The conjunction claim C6 asserts of a state: every mutating operation on
conversations (create, metadata update, chat append, background task append)
leaves every row with `updated_at ≥ created_at`, and every message append or
metadata update strictly increases the matching row's `updated_at` (for the
chat path this requires a truthy — non-empty — conversation id, since the
handler's `if request.conversation_id:` skips the writes otherwise). -/
def UpdatedAtInvariant (st : AppState) : Prop :=
  (∀ (ok : Bool) (req : CreateConversationRequest),
     convWF (create_conversation ok req st).2) ∧
  (∀ (cid : String) (req : UpdateConversationRequest),
     convWF (update_conversation cid req st).2) ∧
  (∀ (i1 i2 u : Bool) (req : ChatRequest), convWF (chat i1 i2 u req st).2) ∧
  (∀ (ins upd : Bool) (cid : String),
     convWF (perform_background_task ins upd cid st)) ∧
  (∀ (cid : String) (req : UpdateConversationRequest) (c : ConversationRow),
     c ∈ st.conversations → c.id = cid →
     ∃ d, d ∈ (update_conversation cid req st).2.conversations ∧ d.id = cid ∧
       c.updated_at < d.updated_at ∧ d.created_at ≤ d.updated_at) ∧
  (∀ (cid : String) (req : ChatRequest) (c : ConversationRow),
     c ∈ st.conversations → c.id = cid → req.conversation_id = some cid →
     ¬ cid = "" →
     ∃ d, d ∈ (chat true true true req st).2.conversations ∧ d.id = cid ∧
       c.updated_at < d.updated_at ∧ d.created_at ≤ d.updated_at) ∧
  (∀ (cid : String) (c : ConversationRow),
     c ∈ st.conversations → c.id = cid →
     ∃ d, d ∈ (perform_background_task true true cid st).conversations ∧
       d.id = cid ∧ c.updated_at < d.updated_at ∧
       d.created_at ≤ d.updated_at)

/-! ### Concrete fixtures for witnesses and counterexamples -/

/-- A state holding one conversation, used by witnesses. -/
def stW : AppState :=
  { initState with
    conversations := [⟨"c1", "T", false, 0, 1⟩], clock := 2 }

/-- A stored scenario used as clone source by the clone witness. -/
def scW : ScenarioRow :=
  { id := "s1", tenant_id := "t", stage_id := "stg", name := "orig",
    job := some "Process", description := some "", nodes := ["n1", "n2"],
    edges := ["e1"], start_node_id := some "n1", category_id := none,
    created_at := 0, updated_at := 1, last_used_at := none }

/-- A state holding one scenario, used by the clone witness. -/
def stW2 : AppState := { initState with admin_scenarios := [scW], clock := 2 }

/-- A create-scenario request cloning from `scW` while supplying its own
nodes/edges/start node, used by the clone witness. -/
def reqW : CreateScenarioRequest :=
  { name := "copy", job := some "Process", description := some "",
    category_id := none, nodes := ["x"], edges := ["y"],
    start_node_id := some "x", clone_from_id := some "s1" }

/-! ## Helper lemmas -/

/-- A sequence of `put` calls appends the events at the tail, in call order. -/
theorem publishAll_eq (es : List NotificationEvent) :
    ∀ q : EventQueue, publishAll q es = q ++ es := by
  induction es with
  | nil => intro q; simp [publishAll]
  | cons e es ih =>
    intro q
    have h := ih (publish q e)
    simp only [publishAll, List.foldl_cons] at h ⊢
    rw [h, publish, List.append_assoc]
    rfl

/-- The generator loop, given enough fuel, drains the whole queue in order. -/
theorem event_generator_drains (es : List NotificationEvent) :
    event_generator es.length es = (es, []) := by
  induction es with
  | nil => rfl
  | cons e es ih => simp [event_generator, qget, ih]

/-- Conservation for arbitrary producer/consumer interleavings: the events the
subscriber has yielded, followed by the events still queued, are exactly the
initial queue followed by the published events in publish order. Hence
delivery is FIFO and exactly-once: nothing is lost, duplicated or reordered. -/
theorem runRelay_conservation : ∀ (ops : List RelayOp) (q : EventQueue),
    (runRelay q ops).1 ++ (runRelay q ops).2 = q ++ publishedOf ops := by
  intro ops
  induction ops with
  | nil => intro q; simp [runRelay, publishedOf]
  | cons op ops ih =>
    intro q
    cases op with
    | publishOp e =>
      have h := ih (publish q e)
      simp only [runRelay, publishedOf, publish] at h ⊢
      rw [h, List.append_assoc]
      rfl
    | getNextOp =>
      cases q with
      | nil => simpa [runRelay, qget, publishedOf] using ih []
      | cons e rest =>
        have h := ih rest
        simp only [runRelay, qget, publishedOf] at h ⊢
        rw [List.cons_append, h, List.cons_append]

/-! ### Conversation timestamp well-formedness -/

theorem convRowsWF_mono {l : List ConversationRow} {clk clk' : Nat}
    (h : convRowsWF l clk) (hle : clk ≤ clk') : convRowsWF l clk' :=
  fun c hc => ⟨(h c hc).1, Nat.lt_of_lt_of_le (h c hc).2 hle⟩

/-- An `update ... eq id` pass that keeps `created_at` and sets `updated_at`
to a fresh instant `t` preserves well-formedness. -/
theorem convRowsWF_update_map {l : List ConversationRow} {clk t clk' : Nat}
    (cid : String) (g : ConversationRow → ConversationRow)
    (hg : ∀ c, (g c).created_at = c.created_at ∧ (g c).updated_at = t)
    (h : convRowsWF l clk) (h1 : clk ≤ t) (h2 : t < clk') :
    convRowsWF (l.map fun c => if c.id = cid then g c else c) clk' := by
  intro c hc
  rcases List.mem_map.1 hc with ⟨a, ha, rfl⟩
  by_cases hid : a.id = cid
  · rw [if_pos hid]
    refine ⟨?_, ?_⟩
    · rw [(hg a).1, (hg a).2]
      exact Nat.le_trans (Nat.le_trans (h a ha).1 (Nat.le_of_lt (h a ha).2)) h1
    · rw [(hg a).2]; exact h2
  · rw [if_neg hid]
    exact ⟨(h a ha).1,
      Nat.lt_of_lt_of_le (h a ha).2 (Nat.le_trans h1 (Nat.le_of_lt h2))⟩

/-- The updated image of a matching row is in the updated table. -/
theorem mem_update_map {l : List ConversationRow} {a : ConversationRow}
    (cid : String) (g : ConversationRow → ConversationRow)
    (ha : a ∈ l) (hid : a.id = cid) :
    g a ∈ l.map fun c => if c.id = cid then g c else c := by
  have h := List.mem_map_of_mem (fun c => if c.id = cid then g c else c) ha
  simp only [] at h
  rwa [if_pos hid] at h

/-- `touch_updated_at` at a fresh instant preserves well-formedness. -/
theorem convRowsWF_touch {l : List ConversationRow} {clk t clk' : Nat}
    (cid : String) (h : convRowsWF l clk) (h1 : clk ≤ t) (h2 : t < clk') :
    convRowsWF (touch_updated_at cid t l) clk' :=
  convRowsWF_update_map cid _ (fun _ => ⟨rfl, rfl⟩) h h1 h2

/-- Appending a fresh well-formed row preserves well-formedness. -/
theorem convRowsWF_append {l : List ConversationRow} {clk clk' : Nat}
    (r : ConversationRow) (h : convRowsWF l clk) (hle : clk ≤ clk')
    (h1 : r.created_at ≤ r.updated_at) (h2 : r.updated_at < clk') :
    convRowsWF (l ++ [r]) clk' := by
  intro c hc
  rcases List.mem_append.1 hc with hm | hm
  · exact ⟨(h c hm).1, Nat.lt_of_lt_of_le (h c hm).2 hle⟩
  · rw [List.mem_singleton.1 hm]
    exact ⟨h1, h2⟩

/-- `POST /conversations` preserves timestamp well-formedness. -/
theorem convWF_create (st : AppState) (hwf : convWF st) (ok : Bool)
    (req : CreateConversationRequest) :
    convWF (create_conversation ok req st).2 := by
  cases ok
  · show convRowsWF st.conversations (st.clock + 2)
    exact convRowsWF_mono hwf (by omega)
  · show convRowsWF (st.conversations ++
      [{ id := "id-" ++ toString st.next_id,
         title := match req.title with
                  | some t => if t = "" then "New Chat" else t
                  | none => "New Chat",
         is_pinned := false, created_at := st.clock,
         updated_at := st.clock + 1 }]) (st.clock + 2)
    exact convRowsWF_append _ hwf (by omega) (Nat.le_succ st.clock)
      (Nat.lt_succ_self (st.clock + 1))

/-- `PATCH /conversations/{id}` preserves timestamp well-formedness. -/
theorem convWF_update (st : AppState) (hwf : convWF st) (cid : String)
    (req : UpdateConversationRequest) :
    convWF (update_conversation cid req st).2 := by
  show convRowsWF (st.conversations.map
    fun c => if c.id = cid then applyConvUpdate req st.clock c else c)
    (st.clock + 1)
  exact convRowsWF_update_map cid _ (fun _ => ⟨rfl, rfl⟩) hwf
    (Nat.le_refl _) (Nat.lt_succ_self _)

/-- Under any trigger outcome, a chat call with all three datastore writes
succeeding on conversation `cid` touches exactly the matching conversations
with the third observed instant, and advances the clock by three ticks. -/
theorem chat_all_ok_conversations (req : ChatRequest) (st : AppState)
    (cid : String) (hreq : req.conversation_id = some cid)
    (hne : ¬ cid = "") :
    (chat true true true req st).2.conversations =
      touch_updated_at cid (st.clock + 2) st.conversations ∧
    (chat true true true req st).2.clock = st.clock + 3 := by
  cases htr : strContains req.content delay_trigger <;>
    simp [chat, hreq, hne, htr, get_utc_now]

/-- `POST /chat` preserves timestamp well-formedness whatever the trigger,
the presence of a conversation id, and the datastore outcomes. -/
theorem convWF_chat (st : AppState) (hwf : convWF st) (i1 i2 u : Bool)
    (req : ChatRequest) : convWF (chat i1 i2 u req st).2 := by
  cases hcid : req.conversation_id with
  | none =>
    cases htr : strContains req.content delay_trigger <;>
      · simp only [convWF, convRowsWF, chat, hcid, htr, get_utc_now,
          Bool.false_eq_true, if_false, if_true]
        exact hwf
  | some cid =>
    by_cases hne : cid = ""
    · cases htr : strContains req.content delay_trigger <;>
        · simp only [convWF, convRowsWF, chat, hcid, hne, htr, get_utc_now,
            Bool.false_eq_true, if_false, if_true, reduceIte]
          exact hwf
    · cases htr : strContains req.content delay_trigger <;>
        cases i1 <;> cases i2 <;> cases u <;>
          simp only [convWF, convRowsWF, chat, hcid, hne, htr, get_utc_now,
            Bool.false_eq_true, if_false, if_true] <;>
        first
          | exact hwf
          | exact convRowsWF_mono hwf (by omega)
          | exact convRowsWF_touch cid hwf (by omega) (by omega)

/-- The background task preserves timestamp well-formedness whatever the
datastore outcomes. -/
theorem convWF_task (st : AppState) (hwf : convWF st) (ins upd : Bool)
    (cid : String) : convWF (perform_background_task ins upd cid st) := by
  cases ins
  · show convRowsWF st.conversations (st.clock + 6)
    exact convRowsWF_mono hwf (by omega)
  · cases upd
    · show convRowsWF st.conversations (st.clock + 7)
      exact convRowsWF_mono hwf (by omega)
    · show convRowsWF (touch_updated_at cid (st.clock + 6) st.conversations)
        (st.clock + 8)
      exact convRowsWF_touch cid hwf (by omega) (by omega)

/-- A metadata update strictly increases `updated_at` on the matching rows. -/
theorem update_strict_increase (st : AppState) (hwf : convWF st) (cid : String)
    (req : UpdateConversationRequest) (c : ConversationRow)
    (hc : c ∈ st.conversations) (hid : c.id = cid) :
    ∃ d, d ∈ (update_conversation cid req st).2.conversations ∧ d.id = cid ∧
      c.updated_at < d.updated_at ∧ d.created_at ≤ d.updated_at := by
  refine ⟨applyConvUpdate req st.clock c, ?_, hid, (hwf c hc).2, ?_⟩
  · show applyConvUpdate req st.clock c ∈ st.conversations.map
      fun x => if x.id = cid then applyConvUpdate req st.clock x else x
    exact mem_update_map cid _ hc hid
  · exact Nat.le_trans (hwf c hc).1 (Nat.le_of_lt (hwf c hc).2)

/-- A chat message append (all writes succeeding) strictly increases
`updated_at` on the matching rows. -/
theorem chat_strict_increase (st : AppState) (hwf : convWF st) (cid : String)
    (req : ChatRequest) (c : ConversationRow) (hc : c ∈ st.conversations)
    (hid : c.id = cid) (hreq : req.conversation_id = some cid)
    (hne : ¬ cid = "") :
    ∃ d, d ∈ (chat true true true req st).2.conversations ∧ d.id = cid ∧
      c.updated_at < d.updated_at ∧ d.created_at ≤ d.updated_at := by
  refine ⟨{ c with updated_at := st.clock + 2 }, ?_, hid, ?_, ?_⟩
  · rw [(chat_all_ok_conversations req st cid hreq hne).1]
    exact mem_update_map cid _ hc hid
  · exact Nat.lt_of_lt_of_le (hwf c hc).2 (Nat.le_add_right st.clock 2)
  · exact Nat.le_trans (hwf c hc).1
      (Nat.le_trans (Nat.le_of_lt (hwf c hc).2) (Nat.le_add_right st.clock 2))

/-- The background task's message append (all writes succeeding) strictly
increases `updated_at` on the matching rows. -/
theorem task_strict_increase (st : AppState) (hwf : convWF st) (cid : String)
    (c : ConversationRow) (hc : c ∈ st.conversations) (hid : c.id = cid) :
    ∃ d, d ∈ (perform_background_task true true cid st).conversations ∧
      d.id = cid ∧ c.updated_at < d.updated_at ∧
      d.created_at ≤ d.updated_at := by
  refine ⟨{ c with updated_at := st.clock + 6 }, ?_, hid, ?_, ?_⟩
  · show ({ c with updated_at := st.clock + 6 } : ConversationRow) ∈
      touch_updated_at cid (st.clock + 6) st.conversations
    exact mem_update_map cid _ hc hid
  · exact Nat.lt_of_lt_of_le (hwf c hc).2 (Nat.le_add_right st.clock 6)
  · exact Nat.le_trans (hwf c hc).1
      (Nat.le_trans (Nat.le_of_lt (hwf c hc).2) (Nat.le_add_right st.clock 6))

/-! ## Claim theorems -/

/-- Claim C1: for every sequence of `publish` calls, the single active SSE
subscriber receives the events in exactly that order, each exactly once. For
any interleaving of producer `put`s and subscriber `get`s, the yielded events
followed by the still-queued events equal the initial queue followed by the
published events in publish order (so delivery is FIFO with no loss,
duplication or reordering); the generator loop started on the queue drains a
published sequence exactly; and a `get` on an empty queue suspends. -/
theorem relay_fifo_exactly_once :
    (∀ (q : EventQueue) (ops : List RelayOp),
       (runRelay q ops).1 ++ (runRelay q ops).2 = q ++ publishedOf ops) ∧
    (∀ es : List NotificationEvent,
       event_generator es.length (publishAll [] es) = (es, [])) ∧
    qget [] = none := by
  refine ⟨fun q ops => runRelay_conservation ops q, fun es => ?_, rfl⟩
  rw [publishAll_eq es ([] : EventQueue), List.nil_append]
  exact event_generator_drains es

/-- Claim C2: on the success path, `perform_background_task cid` waits 5 time
units, appends the assistant row with the fixed done message (observed at
instant `clock + 5`, i.e. right after the delay), then touches the
conversation's `updated_at` (instant `clock + 6`), then publishes exactly one
`NotificationEvent` for `cid` with status `"done"`, the done message and a
timestamp (instant `clock + 7`) — in that order. -/
theorem background_task_success_steps (cid : String) (st : AppState) :
    (perform_background_task true true cid st).messages =
      st.messages ++ [⟨cid, "assistant", success_msg, st.clock + 5⟩] ∧
    (perform_background_task true true cid st).conversations =
      touch_updated_at cid (st.clock + 6) st.conversations ∧
    (perform_background_task true true cid st).event_queue =
      st.event_queue ++ [⟨cid, "done", success_msg, st.clock + 7⟩] ∧
    (perform_background_task true true cid st).clock = st.clock + 8 ∧
    ((perform_background_task true true cid st).event_queue.filter
        (fun e => e.conversation_id = cid)).length =
      (st.event_queue.filter (fun e => e.conversation_id = cid)).length + 1 := by
  refine ⟨rfl, rfl, rfl, rfl, ?_⟩
  have h : (perform_background_task true true cid st).event_queue =
      st.event_queue ++ [⟨cid, "done", success_msg, st.clock + 7⟩] := rfl
  rw [h, List.filter_append]
  simp

/-- Claim C3: if either datastore write inside the background task fails, the
exception is swallowed (the task still returns a final state rather than
propagating an error), no event is published to the relay, and nothing is
rescheduled (no retry). -/
theorem background_task_failure_publishes_nothing
    (insertOk updateOk : Bool) (cid : String) (st : AppState)
    (h : insertOk = false ∨ updateOk = false) :
    (perform_background_task insertOk updateOk cid st).event_queue =
      st.event_queue ∧
    (perform_background_task insertOk updateOk cid st).pending_tasks =
      st.pending_tasks := by
  rcases h with h | h <;> subst h
  · cases updateOk <;> exact ⟨rfl, rfl⟩
  · cases insertOk <;> exact ⟨rfl, rfl⟩

/-- Witness for C3: with a failing message insert, the task publishes nothing
on a concrete state. -/
theorem background_task_failure_publishes_nothing_witness :
    (false = false ∨ true = false) ∧
    ((perform_background_task false true "c1" stW).event_queue =
        stW.event_queue ∧
     (perform_background_task false true "c1" stW).pending_tasks =
        stW.pending_tasks) :=
  ⟨Or.inl rfl,
   background_task_failure_publishes_nothing false true "c1" stW (Or.inl rfl)⟩

/-- Counterexample to claim C4 as stated: the chat handler is a write-path
handler (it inserts two message rows and touches the conversation inside the
request), yet when its first datastore call fails it returns its normal
response — not a 500-equivalent — and the failed writes are simply skipped
(the message table is untouched). -/
theorem chat_swallows_persistence_failure :
    (chat false false false ⟨some "c1", "hello", some "ko", none⟩ stW).1 =
      Except.ok ⟨"text", "Echo: hello (Supabase)", [], none⟩ ∧
    (chat false false false ⟨some "c1", "hello", some "ko", none⟩ stW).2.messages =
      stW.messages := by
  exact ⟨rfl, rfl⟩

/-- Claim C4 as amended: write-path handlers that inspect the datastore result
(conversation create, admin scenario create) surface a 500-equivalent when the
datastore call fails or returns empty — but the chat handler is an exception:
its in-request persistence is wrapped in a catch-and-log block, so it always
returns a normal response whatever the datastore does. -/
theorem write_path_error_surfacing :
    (∀ (req : CreateConversationRequest) (st : AppState),
       (create_conversation false req st).1 = Except.error 500) ∧
    (∀ (t s : String) (req : CreateScenarioRequest) (st : AppState),
       (create_admin_scenario false t s req st).1 = Except.error 500) ∧
    (∀ (i1 i2 u : Bool) (req : ChatRequest) (st : AppState),
       ∃ r, (chat i1 i2 u req st).1 = Except.ok r) := by
  refine ⟨fun req st => rfl, fun t s req st => ?_, fun i1 i2 u req st => ?_⟩
  · simp [create_admin_scenario]
  · exact ⟨_, rfl⟩

/-- Counterexample to claim C5 as stated: a chat request whose content matches
the delay trigger but carries no conversation id schedules no background task
(the claim asserts the trigger alone suffices). -/
theorem chat_trigger_without_conversation_id :
    strContains "앞딜레이뒤" delay_trigger = true ∧
    (chat true true true ⟨none, "앞딜레이뒤", some "ko", none⟩ stW).2.pending_tasks
      = [] ∧
    (chat true true true ⟨none, "앞딜레이뒤", some "ko", none⟩ stW).2 = stW := by
  exact ⟨by decide, rfl, by decide⟩

/-- Claim C5 as amended: every chat request synchronously yields the response
`{type := "text", message, slots, next_node := none}` where the message is the
fixed processing message exactly on a trigger hit (echo otherwise) and the
slots echo the request's; the background task is scheduled only when the
trigger hits AND the conversation id is truthy — present and non-empty, the
Python truthiness of `if request.conversation_id:` (appended to the pending
task list) — and nothing is scheduled otherwise. -/
theorem chat_response_shape_and_scheduling
    (i1 i2 u : Bool) (req : ChatRequest) (st : AppState) :
    (chat i1 i2 u req st).1 =
      Except.ok { type := "text",
                  message :=
                    if strContains req.content delay_trigger then processing_msg
                    else "Echo: " ++ req.content ++ " (Supabase)",
                  slots := req.slots.getD [], next_node := none } ∧
    (chat i1 i2 u req st).2.pending_tasks =
      (if strContains req.content delay_trigger then
        match req.conversation_id with
        | some cid =>
          if cid = "" then st.pending_tasks else st.pending_tasks ++ [cid]
        | none => st.pending_tasks
       else st.pending_tasks) := by
  cases hcid : req.conversation_id with
  | none =>
    cases htr : strContains req.content delay_trigger <;>
      simp [chat, hcid, htr, get_utc_now]
  | some cid =>
    by_cases hne : cid = ""
    · subst hne
      cases htr : strContains req.content delay_trigger <;>
        cases i1 <;> cases i2 <;> cases u <;>
          simp [chat, hcid, htr, get_utc_now]
    · cases htr : strContains req.content delay_trigger <;>
        cases i1 <;> cases i2 <;> cases u <;>
          simp [chat, hcid, hne, htr, get_utc_now]

/-- Claim C6: starting from a timestamp-well-formed state, every mutating
operation on conversations (creation, metadata update, message append by the
chat handler or by the background task) leaves every conversation with
`updated_at ≥ created_at`, and every message append or metadata update
strictly increases the matching conversation's `updated_at`. (Time is
modelled as a strictly increasing instant counter, one tick per
`datetime.now` call.) -/
theorem conversation_timestamp_invariant (st : AppState) (hwf : convWF st) :
    UpdatedAtInvariant st :=
  ⟨fun ok req => convWF_create st hwf ok req,
   fun cid req => convWF_update st hwf cid req,
   fun i1 i2 u req => convWF_chat st hwf i1 i2 u req,
   fun ins upd cid => convWF_task st hwf ins upd cid,
   fun cid req c hc hid => update_strict_increase st hwf cid req c hc hid,
   fun cid req c hc hid hreq hne =>
     chat_strict_increase st hwf cid req c hc hid hreq hne,
   fun cid c hc hid => task_strict_increase st hwf cid c hc hid⟩

/-- Witness for C6 on a concrete well-formed one-conversation state. -/
theorem conversation_timestamp_invariant_witness :
    convWF stW ∧ UpdatedAtInvariant stW :=
  ⟨by decide, conversation_timestamp_invariant stW (by decide)⟩

/-- Claim C7: deleting a conversation id that exists nowhere in the store
returns NotFound (404) and leaves the whole datastore state unchanged. -/
theorem delete_missing_conversation (cid : String) (st : AppState)
    (h : ∀ c ∈ st.conversations, ¬ c.id = cid) :
    (delete_conversation cid st).1 = Except.error 404 ∧
    (delete_conversation cid st).2 = st := by
  have hfil : st.conversations.filter (fun c => c.id = cid) = [] := by
    rw [List.filter_eq_nil_iff]
    intro a ha
    simpa using h a ha
  have hfil2 : st.conversations.filter (fun c => ¬ c.id = cid) =
      st.conversations := by
    rw [List.filter_eq_self]
    intro a ha
    simpa using h a ha
  constructor
  · show (match st.conversations.filter (fun c => c.id = cid) with
      | [] => (Except.error 404 : Except Nat Nat)
      | _ :: _ => Except.ok 204) = Except.error 404
    rw [hfil]
  · show ({ st with
      conversations := st.conversations.filter fun c => ¬ c.id = cid } :
        AppState) = st
    rw [hfil2]

/-- Witness for C7: deleting a missing id on a concrete one-conversation
state returns 404 and changes nothing. -/
theorem delete_missing_conversation_witness :
    (∀ c ∈ stW.conversations, ¬ c.id = "missing") ∧
    ((delete_conversation "missing" stW).1 = Except.error 404 ∧
     (delete_conversation "missing" stW).2 = stW) :=
  ⟨by decide, delete_missing_conversation "missing" stW (by decide)⟩

/-- Claim C8: creating a conversation with no title stores (and returns) a
row with the fixed default title `"New Chat"`, `is_pinned = false`, and
`created_at` / `updated_at` both observed during the creating call. -/
theorem create_conversation_defaults (st : AppState) :
    (create_conversation true ⟨none⟩ st).1 =
      Except.ok { id := "id-" ++ toString st.next_id, title := "New Chat",
                  is_pinned := false, created_at := st.clock,
                  updated_at := st.clock + 1 } ∧
    (create_conversation true ⟨none⟩ st).2.conversations =
      st.conversations ++
        [{ id := "id-" ++ toString st.next_id, title := "New Chat",
           is_pinned := false, created_at := st.clock,
           updated_at := st.clock + 1 }] :=
  ⟨rfl, rfl⟩

/-- Claim C9: the API/form template delete endpoints answer 204 No Content
for every template id and every store state — they never inspect the delete
result, hence never return NotFound (unlike the conversation and scenario
deletes, which 404 on an empty result). -/
theorem template_delete_always_succeeds (template_id : String)
    (st : AppState) :
    (delete_api_template template_id st).1 = Except.ok 204 ∧
    (delete_form_template template_id st).1 = Except.ok 204 :=
  ⟨rfl, rfl⟩

/-- Claim C10: when `clone_from_id` names an existing scenario (clone ids are
non-empty strings — Python truthiness skips the lookup entirely for an empty
one, covered by the third conjunct), the stored new scenario's `nodes`,
`edges` and `start_node_id` are copied from the original, overriding the
request's; when it names no existing scenario, or is absent, or is empty, the
request's own values are stored. -/
theorem create_scenario_clone_semantics (t s : String)
    (req : CreateScenarioRequest) (st : AppState) :
    (∀ c org, req.clone_from_id = some c → ¬ c = "" →
       st.admin_scenarios.find? (fun x : ScenarioRow => x.id = c) = some org →
       ∃ row, (create_admin_scenario true t s req st).1 = Except.ok row ∧
         (create_admin_scenario true t s req st).2.admin_scenarios =
           st.admin_scenarios ++ [row] ∧
         row.nodes = org.nodes ∧ row.edges = org.edges ∧
         row.start_node_id = org.start_node_id ∧ row.name = req.name) ∧
    ((req.clone_from_id = none ∨
      ∃ c, req.clone_from_id = some c ∧
        st.admin_scenarios.find? (fun x : ScenarioRow => x.id = c) = none) →
       ∃ row, (create_admin_scenario true t s req st).1 = Except.ok row ∧
         row.nodes = req.nodes ∧ row.edges = req.edges ∧
         row.start_node_id = req.start_node_id) ∧
    (req.clone_from_id = some "" →
       ∃ row, (create_admin_scenario true t s req st).1 = Except.ok row ∧
         row.nodes = req.nodes ∧ row.edges = req.edges ∧
         row.start_node_id = req.start_node_id) := by
  refine ⟨?_, ?_, ?_⟩
  · intro c org hcl hne hfind
    refine ⟨newScenarioRow t s req st org.nodes org.edges org.start_node_id,
      ?_, ?_, rfl, rfl, rfl, rfl⟩ <;>
      simp [create_admin_scenario, newScenarioRow, hcl, hne, get_utc_now,
        freshId, hfind]
  · rintro (hcl | ⟨c, hcl, hfind⟩)
    · refine ⟨newScenarioRow t s req st req.nodes req.edges req.start_node_id,
        ?_, rfl, rfl, rfl⟩
      simp [create_admin_scenario, newScenarioRow, hcl, get_utc_now, freshId]
    · by_cases hne : c = ""
      · subst hne
        refine ⟨newScenarioRow t s req st req.nodes req.edges
          req.start_node_id, ?_, rfl, rfl, rfl⟩
        simp [create_admin_scenario, newScenarioRow, hcl, get_utc_now, freshId]
      · refine ⟨newScenarioRow t s req st req.nodes req.edges
          req.start_node_id, ?_, rfl, rfl, rfl⟩
        simp [create_admin_scenario, newScenarioRow, hcl, hne, get_utc_now,
          freshId, hfind]
  · intro hcl
    refine ⟨newScenarioRow t s req st req.nodes req.edges req.start_node_id,
      ?_, rfl, rfl, rfl⟩
    simp [create_admin_scenario, newScenarioRow, hcl, get_utc_now, freshId]

/-- Witness for C10: cloning from the stored scenario `scW` overrides the
request's own nodes/edges/start node with the original's. -/
theorem create_scenario_clone_semantics_witness :
    (reqW.clone_from_id = some "s1" ∧ ¬ "s1" = "" ∧
     stW2.admin_scenarios.find? (fun x : ScenarioRow => x.id = "s1") =
       some scW) ∧
    (∃ row, (create_admin_scenario true "t" "stg" reqW stW2).1 =
        Except.ok row ∧
      (create_admin_scenario true "t" "stg" reqW stW2).2.admin_scenarios =
        stW2.admin_scenarios ++ [row] ∧
      row.nodes = scW.nodes ∧ row.edges = scW.edges ∧
      row.start_node_id = scW.start_node_id ∧ row.name = reqW.name) :=
  ⟨⟨rfl, by decide, by decide⟩,
   (create_scenario_clone_semantics "t" "stg" reqW stW2).1 "s1" scW rfl
     (by decide) (by decide)⟩

end MusclecatApi
